import Mathlib

/-!
Shallow embedding of the video-stitching backend
(`src/backend/video_stitcher.py` and `src/backend/video_metadata.py`).

Conventions of the embedding:
* Python exceptions become an explicit `PyError` value in `Except`.
* The external ffprobe/ffmpeg collaborators are parameters of an
  environment record; a probe returns structured `ProbeData`, an
  encoder invocation returns success or a diagnostic string (stderr).
* Filesystem side effects relevant to the claims (file creation,
  file removal, invocation of the external tool) are recorded in an
  explicit event trace returned next to the result.
* Python floats that arise as exact ratios of integers are modelled
  as `Rat` (binary floating-point rounding noise is not modelled; no
  claim depends on it).
* ffprobe stream dimensions are modelled as `Nat` (ffprobe reports
  nonnegative pixel counts), other JSON integers as `Int`.
-/

/-- Value of a decimal digit character, `none` for a non-digit. -/
def digitVal (c : Char) : Option Nat :=
  if '0' ≤ c ∧ c ≤ '9' then some (c.toNat - '0'.toNat) else none

/-- Accumulate decimal digits; fails on the first non-digit. -/
def parseDigitsAux : List Char → Nat → Option Nat
  | [], acc => some acc
  | c :: cs, acc =>
    match digitVal c with
    | some d => parseDigitsAux cs (10 * acc + d)
    | none => none

/-- Model of Python `int(s)` on a plain decimal string with an optional
sign.  (Python also tolerates surrounding whitespace and underscores;
no probe value in this development uses those forms.) -/
def pyInt : List Char → Option Int
  | [] => none
  | '-' :: cs =>
    if cs = [] then none else (parseDigitsAux cs 0).map (fun n => -(n : Int))
  | '+' :: cs =>
    if cs = [] then none else (parseDigitsAux cs 0).map (fun n => (n : Int))
  | cs => (parseDigitsAux cs 0).map (fun n => (n : Int))

/-- Split a character list at every occurrence of `c`, keeping empty
segments, like Python `str.split` with an explicit separator. -/
def splitOnChar (c : Char) : List Char → List (List Char)
  | [] => [[]]
  | x :: xs =>
    if x = c then [] :: splitOnChar c xs
    else
      match splitOnChar c xs with
      | [] => [[x]]
      | g :: gs => (x :: g) :: gs

deriving instance DecidableEq for Except

/-- Python exceptions that the embedded code can raise. -/
inductive PyError where
  | valueError (msg : String)
  | fileNotFoundError (msg : String)
  | runtimeError (msg : String)
  | ffmpegError (stderr : String)
  | keyError (key : String)
  | stopIteration
  | zeroDivisionError
  | evalFailed
  | indexError
deriving DecidableEq, Repr

/-- One stream entry of an ffprobe result (the fields this codebase
reads); a `none` field models an absent JSON key. -/
structure StreamInfo where
  codec_type : String
  codec_name : Option String := none
  width : Option Nat := none
  height : Option Nat := none
  r_frame_rate : Option String := none
deriving DecidableEq, Repr

/-- The container-level fields of an ffprobe result that this codebase
reads, already parsed to numbers (the Python code parses the JSON
strings with `float`/`int`; a value whose parse would fail is modelled
as absent). -/
structure FormatInfo where
  duration : Option Rat := none
  size : Option Int := none
  bit_rate : Option Int := none
deriving DecidableEq, Repr

/-- A structured ffprobe result. -/
structure ProbeData where
  format : FormatInfo := {}
  streams : List StreamInfo := []
deriving DecidableEq, Repr

/-!
### `video_metadata.py`
-/

/-- `VideoMetadataExtractor._gcd` (video_metadata.py lines 116-121):
`while b: a, b = b, a % b; return a`.  Stream dimensions are
nonnegative, so the Python loop coincides with this `Nat` version. -/
def _gcd (a b : Nat) : Nat :=
  if b = 0 then a else _gcd b (a % b)
termination_by b
decreasing_by exact Nat.mod_lt _ (Nat.pos_of_ne_zero (by assumption))

/-- The metadata dictionary built by `extract_metadata`
(video_metadata.py lines 31-40). -/
structure VmMetadata where
  duration_seconds : Option Rat := none
  resolution : Option String := none
  aspect_ratio : Option String := none
  codec : Option String := none
  fps : Option Rat := none
  size_bytes : Int := 0
  bitrate : Option Int := none
  audio_codec : Option String := none
deriving DecidableEq, Repr

/-- Python `round(x, 2)` for the exact rational `num / den` with
`den > 0`: round half to even at two decimal places. -/
def round2 (num den : Int) : Rat :=
  let n : Int := 100 * num
  let q : Int := Int.ediv n den
  let r : Int := Int.emod n den
  if 2 * r > den then mkRat (q + 1) 100
  else if 2 * r < den then mkRat q 100
  else if q % 2 = 0 then mkRat q 100
  else mkRat (q + 1) 100

/-- Python `num, den = map(int, s.split('/'))`: succeeds exactly when
the string has exactly two `/`-separated integer fields. -/
def parseRationalParts (s : String) : Option (Int × Int) :=
  match splitOnChar '/' s.data with
  | [a, b] =>
    match pyInt a, pyInt b with
    | some n, some d => some (n, d)
    | _, _ => none
  | _ => none

/-- Frame-rate parsing of `extract_metadata` (video_metadata.py lines
90-97): on a malformed string or a non-positive denominator the
`except (ValueError, ZeroDivisionError): pass` leaves the field unset,
so the function is total and returns `none` in those cases. -/
def parse_fps (s : String) : Option Rat :=
  match parseRationalParts s with
  | some (num, den) => if den > 0 then some (round2 num den) else none
  | none => none

/-- The FPS block of the video-stream branch (video_metadata.py lines
90-97): sets `fps` only when the rate string parses with a positive
denominator. -/
def applyFpsField (m : VmMetadata) (s : StreamInfo) : VmMetadata :=
  match s.r_frame_rate with
  | some rate =>
    match parse_fps rate with
    | some f => { m with fps := some f }
    | none => m
  | none => m

/-- Processing of one probe stream (video_metadata.py lines 72-102).
An `.error` result models a Python exception escaping the per-stream
work (the `width // gcd_val` division raises `ZeroDivisionError` when
the gcd is zero, i.e. when both dimensions are zero); it carries the
dictionary as mutated up to that point, because the caller catches the
exception and returns the dictionary. -/
def applyStream (m : VmMetadata) (s : StreamInfo) : Except VmMetadata VmMetadata :=
  if s.codec_type = "video" then
    let m1 :=
      match s.codec_name with
      | some c => { m with codec := some c }
      | none => m
    match s.width, s.height with
    | some w, some h =>
      let m2 := { m1 with resolution := some (toString w ++ "x" ++ toString h) }
      let g := _gcd w h
      if g = 0 then .error m2
      else
        let m3 := { m2 with aspect_ratio := some (toString (w / g) ++ ":" ++ toString (h / g)) }
        .ok (applyFpsField m3 s)
    | _, _ => .ok (applyFpsField m1 s)
  else if s.codec_type = "audio" then
    match s.codec_name with
    | some c => .ok { m with audio_codec := some c }
    | none => .ok m
  else .ok m

/-- The stream loop of `extract_metadata` (video_metadata.py lines
71-102); an exception from any stream aborts the loop and the outer
handler returns the dictionary as mutated so far. -/
def processStreams (m : VmMetadata) : List StreamInfo → VmMetadata
  | [] => m
  | s :: rest =>
    match applyStream m s with
    | .ok m1 => processStreams m1 rest
    | .error m1 => m1

/-- The format block of `extract_metadata` (video_metadata.py lines
63-68). -/
def applyFormat (m : VmMetadata) (f : FormatInfo) : VmMetadata :=
  let m1 :=
    match f.duration with
    | some d => { m with duration_seconds := some d }
    | none => m
  match f.bit_rate with
  | some b => { m1 with bitrate := some b }
  | none => m1

/-- Environment of `extract_metadata`: filesystem existence, on-disk
size, and the external ffprobe subprocess, which either yields parsed
JSON or fails (nonzero exit status or unparseable output). -/
structure ProbeEnv where
  fsExists : String → Bool
  fileSize : String → Int
  ffprobe : String → Except String ProbeData

/-- `VideoMetadataExtractor.extract_metadata` (video_metadata.py lines
18-114).  A missing file raises `FileNotFoundError`; every probe or
parse failure after that point is caught by the handlers at lines
107-114, which return the dictionary built so far. -/
def extract_metadata (env : ProbeEnv) (video_path : String) : Except PyError VmMetadata :=
  if env.fsExists video_path = false then
    .error (.fileNotFoundError ("Video file not found: " ++ video_path))
  else
    let m0 : VmMetadata := { size_bytes := env.fileSize video_path }
    match env.ffprobe video_path with
    | .error _ => .ok m0
    | .ok pd => .ok (processStreams (applyFormat m0 pd.format) pd.streams)

example : parse_fps "0/1" = some 0 := by decide
example : parse_fps "30/0" = none := by decide
example : parse_fps "30000/1001" = some (mkRat 2997 100) := by decide
example : parse_fps "30/1" = some 30 := by decide

/-!
### `video_stitcher.py`
-/

/-- The concat-demuxer invocation built by `_stitch_simple`
(video_stitcher.py lines 158-171): the manifest path handed to the
demuxer, the absolute input paths written into the manifest in order,
and the output parameters. -/
structure ConcatCmd where
  manifestPath : String
  manifestEntries : List String
  vcodec : String
  acodec : String
  preset : String
  movflags : String
  outputPath : String
deriving DecidableEq, Repr

/-- The per-clip filter chain built by `_stitch_with_normalization`
(video_stitcher.py lines 217-226): scale to the reference dimensions,
square sample aspect ratio, retime to the reference rate. -/
structure ClipFilter where
  scaleWidth : Int
  scaleHeight : Int
  sar : String
  fpsRate : Rat
deriving DecidableEq, Repr

/-- The filter-graph invocation built by `_stitch_with_normalization`
(video_stitcher.py lines 212-256).  The audio-dependent fields record
which of the two output branches (lines 234-256) was taken. -/
structure NormalizeCmd where
  inputPaths : List String
  clipFilters : List ClipFilter
  hasAudio : Bool
  audioResampleRate : Option Int
  concatAudioStreams : Nat
  vcodec : String
  acodec : Option String
  preset : String
  movflags : String
  strictFlag : Option String
  outputPath : String
deriving DecidableEq, Repr

/-- A run of the external encoding tool, with the declarative command
it was given. -/
inductive ToolInvocation where
  | concatRun (cmd : ConcatCmd)
  | normalizeRun (cmd : NormalizeCmd)
deriving DecidableEq, Repr

/-- Filesystem and subprocess effects of a stitch call that the claims
talk about. -/
inductive FsEvent where
  | createFile (path : String)
  | removeFile (path : String)
  | runTool (inv : ToolInvocation)
deriving DecidableEq, Repr

/-- Environment of a `VideoStitcher` call: its two directories, the
hex digest of the `uuid.uuid4()` drawn by this call, filesystem
queries at call entry, and the two external collaborators. -/
structure StitchEnv where
  outputDir : String
  tempDir : String
  uuidHex : String
  fsExists : String → Bool
  abspath : String → String
  probe : String → Except String ProbeData
  runConcat : ConcatCmd → Except String Unit
  runNormalize : NormalizeCmd → Except String Unit

/-- Whether a path exists after a trace of events, given whether it
existed at the start. -/
def existsAfter (initExists : Bool) (events : List FsEvent) (p : String) : Bool :=
  events.foldl
    (fun st e =>
      match e with
      | .createFile q => if q = p then true else st
      | .removeFile q => if q = p then false else st
      | .runTool _ => st)
    initExists

/-- `next` over the generator selecting streams whose codec_type is
"video": the first video stream, raising `StopIteration` when there is
none (video_stitcher.py lines 113, 195, 277). -/
def getFirstVideoStream (p : ProbeData) : Except PyError StreamInfo :=
  match p.streams.find? (fun s => s.codec_type == "video") with
  | some s => .ok s
  | none => .error .stopIteration

/-- `width, height = map(int, target_resolution.split('x'))`
(video_stitcher.py line 202). -/
def parseResolution (s : String) : Except PyError (Int × Int) :=
  match splitOnChar 'x' s.data with
  | [a, b] =>
    match pyInt a, pyInt b with
    | some w, some h => .ok (w, h)
    | _, _ => .error (.valueError "invalid literal for int() with base 10")
  | _ => .error (.valueError "values to unpack")

/-- Reference dimensions from the first video stream
(video_stitcher.py lines 204-205); a missing JSON key raises
`KeyError`. -/
def dimsFromFirst (first_video : StreamInfo) : Except PyError (Int × Int) :=
  match first_video.width, first_video.height with
  | some w, some h => .ok ((w : Int), (h : Int))
  | none, _ => .error (.keyError "width")
  | some _, none => .error (.keyError "height")

/-- Target-resolution selection (video_stitcher.py lines 200-205):
Python `if target_resolution:` is falsy for both `None` and the empty
string, so both fall back to the first input. -/
def referenceDims (first_video : StreamInfo) (target_resolution : Option String) :
    Except PyError (Int × Int) :=
  match target_resolution with
  | some s => if s = "" then dimsFromFirst first_video else parseResolution s
  | none => dimsFromFirst first_video

/-- Python eval applied to the r_frame_rate field of the first video
stream (video_stitcher.py line 208), modelled on the rate strings
ffprobe produces: an integer ratio evaluates to its exact quotient, a
ratio with zero denominator raises `ZeroDivisionError`, and anything
else fails (the model does not give eval its full generality). -/
def evalRate (s : String) : Except PyError Rat :=
  match splitOnChar '/' s.data with
  | [a, b] =>
    match pyInt a, pyInt b with
    | some n, some d => if d = 0 then .error .zeroDivisionError else .ok (Rat.divInt n d)
    | _, _ => .error .evalFailed
  | [a] =>
    match pyInt a with
    | some n => .ok ((n : Rat))
    | none => .error .evalFailed
  | _ => .error .evalFailed

/-- Whether any stream of the first probe is an audio stream
(video_stitcher.py line 198); this one flag drives every
audio-dependent part of the normalizing strategy. -/
def audioDecision (p : ProbeData) : Bool :=
  p.streams.any (fun s => s.codec_type == "audio")

/-- The filter-graph construction of `_stitch_with_normalization`
(video_stitcher.py lines 193-256), as a declarative command for the
external tool. -/
def buildNormalizeCmd (first_probe : ProbeData) (input_videos : List String)
    (output_path : String) (target_resolution : Option String)
    (video_codec audio_codec preset : String) : Except PyError NormalizeCmd :=
  match getFirstVideoStream first_probe with
  | .error e => .error e
  | .ok first_video =>
    let has_audio := audioDecision first_probe
    match referenceDims first_video target_resolution with
    | .error e => .error e
    | .ok (width, height) =>
      match first_video.r_frame_rate with
      | none => .error (.keyError "r_frame_rate")
      | some rate_str =>
        match evalRate rate_str with
        | .error e => .error e
        | .ok fps =>
          .ok { inputPaths := input_videos,
                clipFilters := input_videos.map (fun _ => ⟨width, height, "1/1", fps⟩),
                hasAudio := has_audio,
                audioResampleRate := if has_audio then some 48000 else none,
                concatAudioStreams := if has_audio then 1 else 0,
                vcodec := video_codec,
                acodec := if has_audio then some audio_codec else none,
                preset := preset,
                movflags := "faststart",
                strictFlag := if has_audio then some "experimental" else none,
                outputPath := output_path }

/-- The frame size of the encoded output under the scale-and-concat
semantics of the external tool: all clips are scaled to one size, so
the concatenated timeline has that size. -/
def cmdOutputResolution (cmd : NormalizeCmd) : Option (Int × Int) :=
  match cmd.clipFilters with
  | [] => none
  | f :: _ => some (f.scaleWidth, f.scaleHeight)

/-- `VideoStitcher._stitch_with_normalization` (video_stitcher.py
lines 180-261): probe the first input, build the filter graph, run the
tool.  `input_videos[0]` on an empty list raises `IndexError`. -/
def stitch_with_normalization (env : StitchEnv) (input_videos : List String)
    (output_path : String) (target_resolution : Option String)
    (video_codec audio_codec preset : String) :
    List FsEvent × Except PyError String :=
  match input_videos with
  | [] => ([], .error .indexError)
  | first :: _ =>
    match env.probe first with
    | .error stderr => ([], .error (.ffmpegError stderr))
    | .ok first_probe =>
      match buildNormalizeCmd first_probe input_videos output_path target_resolution
          video_codec audio_codec preset with
      | .error e => ([], .error e)
      | .ok cmd =>
        match env.runNormalize cmd with
        | .ok _ =>
          ([.runTool (.normalizeRun cmd), .createFile output_path], .ok output_path)
        | .error stderr =>
          ([.runTool (.normalizeRun cmd)], .error (.ffmpegError stderr))

/-- The manifest path chosen by `_stitch_simple` (video_stitcher.py
line 149): `os.path.join(temp_dir, "concat_" + uuid4().hex[:8] + ".txt")`. -/
def concatManifestName (env : StitchEnv) : String :=
  env.tempDir ++ "/concat_" ++ (⟨env.uuidHex.data.take 8⟩ : String) ++ ".txt"

/-- `VideoStitcher._stitch_simple` (video_stitcher.py lines 136-178):
write the manifest of absolute paths, run the concat demuxer, and in
the `finally` block remove the manifest whether or not the run
succeeded. -/
def stitch_simple (env : StitchEnv) (input_videos : List String)
    (output_path : String) (video_codec audio_codec preset : String) :
    List FsEvent × Except PyError String :=
  let concat_file := concatManifestName env
  let cmd : ConcatCmd :=
    { manifestPath := concat_file,
      manifestEntries := input_videos.map env.abspath,
      vcodec := video_codec, acodec := audio_codec, preset := preset,
      movflags := "faststart", outputPath := output_path }
  match env.runConcat cmd with
  | .ok _ =>
    ([.createFile concat_file, .runTool (.concatRun cmd), .createFile output_path,
      .removeFile concat_file], .ok output_path)
  | .error stderr =>
    ([.createFile concat_file, .runTool (.concatRun cmd), .removeFile concat_file],
     .error (.ffmpegError stderr))

/-- The result dictionary of `stitch_videos` (video_stitcher.py lines
115-123). -/
structure StitchResult where
  output_path : String
  filename : String
  duration : Rat
  size : Int
  resolution : String
  codec : String
  input_count : Nat
deriving DecidableEq, Repr

/-- The generated output name, "stitched_" plus the first 8 hex
digits of the uuid4 plus ".mp4" (video_stitcher.py line 84). -/
def generatedName (env : StitchEnv) : String :=
  "stitched_" ++ (⟨env.uuidHex.data.take 8⟩ : String) ++ ".mp4"

/-- `if not output_filename:` (video_stitcher.py line 83): both `None`
and the empty string fall back to the generated name. -/
def resolveOutputFilename (env : StitchEnv) (output_filename : Option String) : String :=
  match output_filename with
  | some s => if s = "" then generatedName env else s
  | none => generatedName env

/-- The `except ffmpeg.Error` handler (video_stitcher.py lines
128-131) re-raises as `RuntimeError` with the captured stderr; every
other exception is re-raised unchanged (lines 132-134). -/
def wrapStrategyError : PyError → PyError
  | .ffmpegError stderr => .runtimeError ("Video stitching failed: " ++ stderr)
  | e => e

/-- Assembly of the result dictionary from the probe of the produced
output (video_stitcher.py lines 112-123); missing JSON keys raise
`KeyError`, an output without a video stream raises `StopIteration`. -/
def buildResult (out_probe : ProbeData) (output_path output_filename : String)
    (count : Nat) : Except PyError StitchResult :=
  match getFirstVideoStream out_probe with
  | .error e => .error e
  | .ok video_info =>
    match out_probe.format.duration with
    | none => .error (.keyError "duration")
    | some dur =>
      match out_probe.format.size with
      | none => .error (.keyError "size")
      | some sz =>
        match video_info.width, video_info.height with
        | none, _ => .error (.keyError "width")
        | some _, none => .error (.keyError "height")
        | some w, some h =>
          match video_info.codec_name with
          | none => .error (.keyError "codec_name")
          | some codec =>
            .ok { output_path := output_path, filename := output_filename,
                  duration := dur, size := sz,
                  resolution := toString w ++ "x" ++ toString h,
                  codec := codec, input_count := count }

/-- The tail of `stitch_videos` after strategy dispatch
(video_stitcher.py lines 111-134): probe the output, assemble the
result, translate `ffmpeg.Error` into `RuntimeError`. -/
def finishStitch (env : StitchEnv) (es : List FsEvent × Except PyError String)
    (out_name : String) (count : Nat) :
    List FsEvent × Except PyError StitchResult :=
  match es with
  | (events, .error e) => (events, .error (wrapStrategyError e))
  | (events, .ok final_path) =>
    match env.probe final_path with
    | .error stderr =>
      (events, .error (.runtimeError ("Video stitching failed: " ++ stderr)))
    | .ok out_probe =>
      match buildResult out_probe final_path out_name count with
      | .error e => (events, .error (wrapStrategyError e))
      | .ok r => (events, .ok r)

/-- `VideoStitcher.stitch_videos` (video_stitcher.py lines 40-134). -/
def stitch_videos (env : StitchEnv) (input_videos : List String)
    (output_filename : Option String) (normalize : Bool)
    (target_resolution : Option String)
    (video_codec audio_codec preset : String) :
    List FsEvent × Except PyError StitchResult :=
  if input_videos.length = 0 then
    ([], .error (.valueError "At least one input video is required"))
  else if input_videos.length > 100 then
    ([], .error (.valueError "Too many input videos (max 100)"))
  else
    match input_videos.find? (fun p => !(env.fsExists p)) with
    | some missing =>
      ([], .error (.fileNotFoundError ("Input video not found: " ++ missing)))
    | none =>
      let out_name := resolveOutputFilename env output_filename
      let output_path := env.outputDir ++ "/" ++ out_name
      let es :=
        if normalize then
          stitch_with_normalization env input_videos output_path target_resolution
            video_codec audio_codec preset
        else
          stitch_simple env input_videos output_path video_codec audio_codec preset
      finishStitch env es out_name input_videos.length

/-!
### Concrete fixtures used by the witnesses
-/

/-- A well-formed probe result: one h264 640x480 30fps video stream
and one aac audio stream. -/
def probeGood : ProbeData :=
  { format := { duration := some 10, size := some 4096, bit_rate := some 1000000 },
    streams :=
      [ { codec_type := "video", codec_name := some "h264", width := some 640,
          height := some 480, r_frame_rate := some "30/1" },
        { codec_type := "audio", codec_name := some "aac" } ] }

/-- An environment in which every path exists, every probe returns
`probeGood`, and both tool invocations succeed. -/
def envGood : StitchEnv :=
  { outputDir := "videos", tempDir := "/tmp", uuidHex := "0123456789abcdef",
    fsExists := fun _ => true, abspath := fun p => p,
    probe := fun _ => .ok probeGood,
    runConcat := fun _ => .ok (), runNormalize := fun _ => .ok () }

/-- The filter-graph command `envGood` produces for two inputs. -/
def cmdGood : NormalizeCmd :=
  { inputPaths := ["a.mp4", "b.mp4"],
    clipFilters := [⟨640, 480, "1/1", 30⟩, ⟨640, 480, "1/1", 30⟩],
    hasAudio := true, audioResampleRate := some 48000, concatAudioStreams := 1,
    vcodec := "libx264", acodec := some "aac", preset := "medium",
    movflags := "faststart", strictFlag := some "experimental",
    outputPath := "videos/stitched_01234567.mp4" }

/-- The result `envGood` produces for two inputs. -/
def resGood : StitchResult :=
  { output_path := "videos/stitched_01234567.mp4",
    filename := "stitched_01234567.mp4", duration := 10, size := 4096,
    resolution := "640x480", codec := "h264", input_count := 2 }

example :
    stitch_videos envGood ["a.mp4", "b.mp4"] none true none "libx264" "aac" "medium" =
      ([.runTool (.normalizeRun cmdGood),
        .createFile "videos/stitched_01234567.mp4"], .ok resGood) := by
  decide

/-!
### Theorems
-/

/-- On the success path of `buildResult` the `input_count` field is
the count handed in. -/
theorem buildResult_input_count (p : ProbeData) (op fn : String) (cnt : Nat)
    (r : StitchResult) (h : buildResult p op fn cnt = .ok r) : r.input_count = cnt := by
  unfold buildResult at h
  cases hv : getFirstVideoStream p <;> simp only [hv] at h
  · exact Except.noConfusion h
  case ok video_info =>
  cases hd : p.format.duration <;> simp only [hd] at h
  · exact Except.noConfusion h
  case some dur =>
  cases hs : p.format.size <;> simp only [hs] at h
  · exact Except.noConfusion h
  case some sz =>
  cases hw : video_info.width <;> simp only [hw] at h
  · exact Except.noConfusion h
  case some w =>
  cases hh : video_info.height <;> simp only [hh] at h
  · exact Except.noConfusion h
  case some hgt =>
  cases hc : video_info.codec_name <;> simp only [hc] at h
  · exact Except.noConfusion h
  case some codec =>
  simp only [Except.ok.injEq] at h
  subst h
  rfl

/-- On the success path of `finishStitch` the `input_count` field is
the count handed in. -/
theorem finishStitch_input_count (env : StitchEnv)
    (es : List FsEvent × Except PyError String) (nm : String) (cnt : Nat)
    (ev : List FsEvent) (r : StitchResult)
    (h : finishStitch env es nm cnt = (ev, .ok r)) : r.input_count = cnt := by
  obtain ⟨events, res⟩ := es
  unfold finishStitch at h
  cases res with
  | error e => exact Except.noConfusion (congrArg Prod.snd h)
  | ok final_path =>
    cases hp : env.probe final_path <;> simp only [hp] at h
    · exact Except.noConfusion (congrArg Prod.snd h)
    case ok out_probe =>
    cases hb : buildResult out_probe final_path nm cnt <;> simp only [hb] at h
    · exact Except.noConfusion (congrArg Prod.snd h)
    case ok r0 =>
    have h2 : Except.ok r0 = Except.ok r := congrArg Prod.snd h
    injection h2 with h2
    subst h2
    exact buildResult_input_count _ _ _ _ _ hb

/-- Claim C1: for every input list with between 1 and 100 entries, all
naming files that exist on disk, a call to `stitch_videos` that
succeeds returns a result whose `input_count` field equals the length
of the input list. -/
theorem stitch_videos_input_count (env : StitchEnv) (input_videos : List String)
    (output_filename : Option String) (normalize : Bool)
    (target_resolution : Option String) (video_codec audio_codec preset : String)
    (ev : List FsEvent) (r : StitchResult)
    (h1 : 1 ≤ input_videos.length) (h100 : input_videos.length ≤ 100)
    (hall : ∀ p ∈ input_videos, env.fsExists p = true)
    (hok : stitch_videos env input_videos output_filename normalize target_resolution
        video_codec audio_codec preset = (ev, .ok r)) :
    r.input_count = input_videos.length := by
  unfold stitch_videos at hok
  rw [if_neg (by omega), if_neg (by omega)] at hok
  cases hf : input_videos.find? (fun p => !(env.fsExists p)) <;> rw [hf] at hok
  case some missing => exact Except.noConfusion (congrArg Prod.snd hok)
  case none => exact finishStitch_input_count _ _ _ _ _ _ hok

/-- Witness for C1: a concrete two-input call through the normalizing
strategy succeeds and reports `input_count = 2`. -/
theorem stitch_videos_input_count_witness :
    stitch_videos envGood ["a.mp4", "b.mp4"] none true none "libx264" "aac" "medium" =
      ([.runTool (.normalizeRun cmdGood), .createFile "videos/stitched_01234567.mp4"],
        .ok resGood) ∧ resGood.input_count = 2 :=
  ⟨by decide,
   stitch_videos_input_count envGood ["a.mp4", "b.mp4"] none true none "libx264" "aac"
     "medium"
     [.runTool (.normalizeRun cmdGood), .createFile "videos/stitched_01234567.mp4"]
     resGood (by decide) (by decide) (fun p _ => rfl) (by decide)⟩

/-- Claim C3: an empty input list fails with `ValueError` ("At least
one input video is required"), a list of more than 100 entries fails
with `ValueError` ("Too many input videos (max 100)"), and in both
cases the event trace is empty: no file is created anywhere, in
particular not in the output directory. -/
theorem stitch_videos_rejects_bad_count (env : StitchEnv) (input_videos : List String)
    (output_filename : Option String) (normalize : Bool)
    (target_resolution : Option String) (video_codec audio_codec preset : String) :
    (input_videos = [] →
      stitch_videos env input_videos output_filename normalize target_resolution
        video_codec audio_codec preset =
        ([], .error (.valueError "At least one input video is required")))
    ∧ (input_videos.length > 100 →
      stitch_videos env input_videos output_filename normalize target_resolution
        video_codec audio_codec preset =
        ([], .error (.valueError "Too many input videos (max 100)"))) := by
  constructor
  · intro h
    subst h
    rfl
  · intro h
    unfold stitch_videos
    rw [if_neg (by omega), if_pos h]

/-- A 101-entry input list. -/
def list101 : List String := List.replicate 101 "v.mp4"

/-- Witness for C3: the empty list and a 101-entry list are both
rejected with the stated errors and an empty trace. -/
theorem stitch_videos_rejects_bad_count_witness :
    (stitch_videos envGood [] none true none "libx264" "aac" "medium" =
      ([], .error (.valueError "At least one input video is required")))
    ∧ (stitch_videos envGood list101 none true none "libx264" "aac" "medium" =
      ([], .error (.valueError "Too many input videos (max 100)"))) :=
  ⟨(stitch_videos_rejects_bad_count envGood [] none true none "libx264" "aac" "medium").1
     rfl,
   (stitch_videos_rejects_bad_count envGood list101 none true none "libx264" "aac"
     "medium").2 (by decide)⟩

/-- Claim C4: when some input path does not exist, `stitch_videos`
fails with `FileNotFoundError` naming the first missing path, and the
event trace is empty: the media tool is never invoked, no output file
is created, and no temporary manifest is written. -/
theorem stitch_videos_missing_input (env : StitchEnv) (input_videos : List String)
    (output_filename : Option String) (normalize : Bool)
    (target_resolution : Option String) (video_codec audio_codec preset : String)
    (p : String)
    (h1 : input_videos ≠ []) (h100 : input_videos.length ≤ 100)
    (hfind : input_videos.find? (fun q => !(env.fsExists q)) = some p) :
    stitch_videos env input_videos output_filename normalize target_resolution
        video_codec audio_codec preset =
      ([], .error (.fileNotFoundError ("Input video not found: " ++ p)))
    ∧ p ∈ input_videos ∧ env.fsExists p = false := by
  refine ⟨?_, List.mem_of_find?_eq_some hfind, ?_⟩
  · unfold stitch_videos
    rw [if_neg (fun hl => h1 (List.length_eq_zero.mp hl)), if_neg (by omega), hfind]
  · have hp := List.find?_some hfind
    simpa using hp

/-- An environment in which exactly the path "missing.mp4" is absent. -/
def envMissingInput : StitchEnv :=
  { envGood with fsExists := fun s => !(s == "missing.mp4") }

/-- Witness for C4 at a concrete three-input call with one missing
path. -/
theorem stitch_videos_missing_input_witness :
    stitch_videos envMissingInput ["a.mp4", "missing.mp4", "b.mp4"] none true none
        "libx264" "aac" "medium" =
      ([], .error (.fileNotFoundError ("Input video not found: " ++ "missing.mp4")))
    ∧ "missing.mp4" ∈ ["a.mp4", "missing.mp4", "b.mp4"]
    ∧ envMissingInput.fsExists "missing.mp4" = false :=
  stitch_videos_missing_input envMissingInput ["a.mp4", "missing.mp4", "b.mp4"] none true
    none "libx264" "aac" "medium" "missing.mp4" (by decide) (by decide) (by decide)

/-- Distinct truncated UUID digests in the same temp directory give
distinct manifest paths. -/
theorem concatManifestName_inj (env env' : StitchEnv) (hdir : env.tempDir = env'.tempDir)
    (huuid : (⟨env.uuidHex.data.take 8⟩ : String) ≠ (⟨env'.uuidHex.data.take 8⟩ : String)) :
    concatManifestName env ≠ concatManifestName env' := by
  intro h
  apply huuid
  unfold concatManifestName at h
  rw [hdir] at h
  have hd := congrArg String.data h
  simp only [String.data_append] at hd
  exact String.ext ((List.append_right_inj _).mp ((List.append_left_inj _).mp hd))

/-- Claim C7: a simple-strategy call creates its concatenation
manifest first, under a path in the temp directory derived from the
fresh UUID of the call (distinct truncated digests give distinct
paths), and after the call returns the manifest is absent from the
filesystem on the success path and on the failure path alike. -/
theorem stitch_simple_manifest (env env' : StitchEnv)
    (input_videos : List String)
    (output_path video_codec audio_codec preset : String) (initExists : Bool)
    (hdir : env.tempDir = env'.tempDir)
    (huuid : (⟨env.uuidHex.data.take 8⟩ : String) ≠ (⟨env'.uuidHex.data.take 8⟩ : String)) :
    ((stitch_simple env input_videos output_path video_codec audio_codec preset).1.head? =
        some (.createFile (concatManifestName env)))
    ∧ existsAfter initExists
        (stitch_simple env input_videos output_path video_codec audio_codec preset).1
        (concatManifestName env) = false
    ∧ concatManifestName env ≠ concatManifestName env' := by
  refine ⟨?_, ?_, concatManifestName_inj env env' hdir huuid⟩ <;>
  · simp only [stitch_simple]
    split <;> simp [existsAfter]

/-- An environment like `envGood` but drawing a different UUID. -/
def envGoodOtherUuid : StitchEnv := { envGood with uuidHex := "fedcba9876543210" }

/-- Witness for C7 at a concrete one-input simple-strategy call. -/
theorem stitch_simple_manifest_witness :
    ((stitch_simple envGood ["a.mp4"] "videos/out.mp4" "libx264" "aac" "medium").1.head? =
        some (.createFile (concatManifestName envGood)))
    ∧ existsAfter false
        (stitch_simple envGood ["a.mp4"] "videos/out.mp4" "libx264" "aac" "medium").1
        (concatManifestName envGood) = false
    ∧ concatManifestName envGood ≠ concatManifestName envGoodOtherUuid :=
  stitch_simple_manifest envGood envGoodOtherUuid ["a.mp4"] "videos/out.mp4" "libx264"
    "aac" "medium" false rfl (by decide)

/-- If the normalizing strategy invoked the tool with command `cmd`,
then the inputs were nonempty, the first input probed successfully,
and `cmd` is exactly the command built from that first probe. -/
theorem normalizeRun_mem (env : StitchEnv) (input_videos : List String)
    (output_path : String) (target_resolution : Option String)
    (video_codec audio_codec preset : String) (cmd : NormalizeCmd)
    (h : FsEvent.runTool (.normalizeRun cmd) ∈
      (stitch_with_normalization env input_videos output_path target_resolution
        video_codec audio_codec preset).1) :
    ∃ first rest first_probe, input_videos = first :: rest
      ∧ env.probe first = .ok first_probe
      ∧ buildNormalizeCmd first_probe input_videos output_path target_resolution
          video_codec audio_codec preset = .ok cmd := by
  unfold stitch_with_normalization at h
  cases input_videos with
  | nil => simp at h
  | cons first rest =>
    refine ⟨first, rest, ?_⟩
    cases hp : env.probe first <;> simp only [hp] at h
    · simp at h
    case ok first_probe =>
    refine ⟨first_probe, rfl, rfl, ?_⟩
    cases hb : buildNormalizeCmd first_probe (first :: rest) output_path target_resolution
        video_codec audio_codec preset <;> simp only [hb] at h
    · simp at h
    case ok cmd0 =>
    cases hr : env.runNormalize cmd0 <;> simp only [hr] at h <;> simp at h <;>
      rw [h]

/-- The audio-dependent fields of a built normalization command are
each determined by `audioDecision` of the first probe alone. -/
theorem buildNormalizeCmd_audio (first_probe : ProbeData) (inputs : List String)
    (out : String) (tr : Option String) (vc ac pr : String) (cmd : NormalizeCmd)
    (h : buildNormalizeCmd first_probe inputs out tr vc ac pr = .ok cmd) :
    cmd.hasAudio = audioDecision first_probe
    ∧ cmd.audioResampleRate = (if audioDecision first_probe then some 48000 else none)
    ∧ cmd.concatAudioStreams = (if audioDecision first_probe then 1 else 0)
    ∧ cmd.acodec = (if audioDecision first_probe then some ac else none)
    ∧ cmd.strictFlag = (if audioDecision first_probe then some "experimental" else none) := by
  unfold buildNormalizeCmd at h
  cases hv : getFirstVideoStream first_probe <;> simp only [hv] at h
  · exact Except.noConfusion h
  case ok fv =>
  cases hd : referenceDims fv tr <;> simp only [hd] at h
  · exact Except.noConfusion h
  case ok wh =>
  cases hr : fv.r_frame_rate <;> simp only [hr] at h
  · exact Except.noConfusion h
  case some rate =>
  cases he : evalRate rate <;> simp only [he] at h
  · exact Except.noConfusion h
  case ok fps =>
  simp only [Except.ok.injEq] at h
  subst h
  exact ⟨rfl, rfl, rfl, rfl, rfl⟩

/-- The clip filters of a built normalization command: one per input,
all scaling to the dimensions selected by `referenceDims`. -/
theorem buildNormalizeCmd_filters (first_probe : ProbeData) (inputs : List String)
    (out : String) (tr : Option String) (vc ac pr : String) (cmd : NormalizeCmd)
    (h : buildNormalizeCmd first_probe inputs out tr vc ac pr = .ok cmd) :
    ∃ fv W H fps, getFirstVideoStream first_probe = .ok fv
      ∧ referenceDims fv tr = .ok (W, H)
      ∧ cmd.clipFilters = inputs.map (fun _ => ⟨W, H, "1/1", fps⟩) := by
  unfold buildNormalizeCmd at h
  cases hv : getFirstVideoStream first_probe <;> simp only [hv] at h
  · exact Except.noConfusion h
  case ok fv =>
  cases hd : referenceDims fv tr <;> simp only [hd] at h
  · exact Except.noConfusion h
  case ok wh =>
  cases hr : fv.r_frame_rate <;> simp only [hr] at h
  · exact Except.noConfusion h
  case some rate =>
  cases he : evalRate rate <;> simp only [he] at h
  · exact Except.noConfusion h
  case ok fps =>
  simp only [Except.ok.injEq] at h
  subst h
  exact ⟨fv, wh.1, wh.2, fps, rfl, hd, rfl⟩

/-- What `referenceDims` selected, spelled out: the parsed target
resolution when a nonempty target string was supplied, else the own
dimensions of the first video stream. -/
theorem referenceDims_spec (fv : StreamInfo) (tr : Option String) (W H : Int)
    (h : referenceDims fv tr = .ok (W, H)) :
    (∀ s, tr = some s → s ≠ "" → parseResolution s = .ok (W, H))
    ∧ (tr = none →
        ∃ w hgt, fv.width = some w ∧ fv.height = some hgt
          ∧ W = (w : Int) ∧ H = (hgt : Int)) := by
  unfold referenceDims at h
  cases tr with
  | none =>
    refine ⟨fun s hs => Option.noConfusion hs, fun _ => ?_⟩
    unfold dimsFromFirst at h
    cases hw : fv.width <;> simp only [hw] at h
    · exact Except.noConfusion h
    case some w =>
    cases hh : fv.height <;> simp only [hh] at h
    · exact Except.noConfusion h
    case some hgt =>
    simp only [Except.ok.injEq, Prod.mk.injEq] at h
    exact ⟨w, hgt, rfl, rfl, h.1.symm, h.2.symm⟩
  | some s =>
    refine ⟨fun s' hs' hne => ?_, fun hn => Option.noConfusion hn⟩
    injection hs' with hs'
    subst hs'
    dsimp only at h
    rw [if_neg hne] at h
    exact h

/-- Claim C2: every tool invocation of the normalizing strategy scales
every input clip to exactly the reference dimensions — the parsed
`target_resolution` when one is supplied, else the dimensions of the
first video stream of the first input — so under the scale-and-concat
semantics of the tool the output frame size is that reference size. -/
theorem normalization_scale_reference (env : StitchEnv) (input_videos : List String)
    (output_path : String) (target_resolution : Option String)
    (video_codec audio_codec preset : String) (cmd : NormalizeCmd)
    (h : FsEvent.runTool (.normalizeRun cmd) ∈
      (stitch_with_normalization env input_videos output_path target_resolution
        video_codec audio_codec preset).1) :
    ∃ first rest first_probe first_video W H,
      input_videos = first :: rest
      ∧ env.probe first = .ok first_probe
      ∧ getFirstVideoStream first_probe = .ok first_video
      ∧ referenceDims first_video target_resolution = .ok (W, H)
      ∧ (∀ s, target_resolution = some s → s ≠ "" → parseResolution s = .ok (W, H))
      ∧ (target_resolution = none →
          ∃ w hgt, first_video.width = some w ∧ first_video.height = some hgt
            ∧ W = (w : Int) ∧ H = (hgt : Int))
      ∧ (∀ f ∈ cmd.clipFilters, f.scaleWidth = W ∧ f.scaleHeight = H)
      ∧ cmdOutputResolution cmd = some (W, H) := by
  obtain ⟨first, rest, first_probe, hiv, hp, hb⟩ :=
    normalizeRun_mem env input_videos output_path target_resolution video_codec
      audio_codec preset cmd h
  obtain ⟨fv, W, H, fps, hv, hd, hf⟩ :=
    buildNormalizeCmd_filters first_probe input_videos output_path target_resolution
      video_codec audio_codec preset cmd hb
  obtain ⟨hsome, hnone⟩ := referenceDims_spec fv target_resolution W H hd
  refine ⟨first, rest, first_probe, fv, W, H, hiv, hp, hv, hd, hsome, hnone, ?_, ?_⟩
  · intro f hfm
    rw [hf] at hfm
    obtain ⟨x, -, hx⟩ := List.mem_map.mp hfm
    rw [← hx]
    exact ⟨rfl, rfl⟩
  · rw [cmdOutputResolution, hf, hiv]
    rfl

/-- Witness for C2 at a concrete two-input normalizing call with no
explicit target resolution. -/
theorem normalization_scale_reference_witness :
    ∃ first rest first_probe first_video W H,
      (["a.mp4", "b.mp4"] : List String) = first :: rest
      ∧ envGood.probe first = .ok first_probe
      ∧ getFirstVideoStream first_probe = .ok first_video
      ∧ referenceDims first_video none = .ok (W, H)
      ∧ (∀ s, (none : Option String) = some s → s ≠ "" → parseResolution s = .ok (W, H))
      ∧ ((none : Option String) = none →
          ∃ w hgt, first_video.width = some w ∧ first_video.height = some hgt
            ∧ W = (w : Int) ∧ H = (hgt : Int))
      ∧ (∀ f ∈ cmdGood.clipFilters, f.scaleWidth = W ∧ f.scaleHeight = H)
      ∧ cmdOutputResolution cmdGood = some (W, H) :=
  normalization_scale_reference envGood ["a.mp4", "b.mp4"]
    "videos/stitched_01234567.mp4" none "libx264" "aac" "medium" cmdGood (by decide)

/-- Claim C8: in any two normalizing-strategy runs that share the same
first input (and hence the same first probe), every audio-dependent
part of the built command — the audio flag, the per-clip resample
filter, the audio arity of the concat node, the audio encoder, and the
strict flag — is identical, and equals a function of whether the first
probe carries an audio stream; the later inputs never influence it. -/
theorem normalization_audio_first_input (env : StitchEnv)
    (inputs1 inputs2 : List String) (v : String) (first_probe : ProbeData)
    (out1 out2 : String) (tr : Option String) (vc ac pr : String)
    (c1 c2 : NormalizeCmd)
    (h1 : inputs1.head? = some v) (h2 : inputs2.head? = some v)
    (hp : env.probe v = .ok first_probe)
    (hm1 : FsEvent.runTool (.normalizeRun c1) ∈
      (stitch_with_normalization env inputs1 out1 tr vc ac pr).1)
    (hm2 : FsEvent.runTool (.normalizeRun c2) ∈
      (stitch_with_normalization env inputs2 out2 tr vc ac pr).1) :
    c1.hasAudio = audioDecision first_probe
    ∧ c2.hasAudio = audioDecision first_probe
    ∧ c1.hasAudio = c2.hasAudio
    ∧ c1.audioResampleRate = c2.audioResampleRate
    ∧ c1.concatAudioStreams = c2.concatAudioStreams
    ∧ c1.acodec = c2.acodec
    ∧ c1.strictFlag = c2.strictFlag := by
  obtain ⟨f1, r1, p1, hiv1, hp1, hb1⟩ := normalizeRun_mem _ _ _ _ _ _ _ _ hm1
  obtain ⟨f2, r2, p2, hiv2, hp2, hb2⟩ := normalizeRun_mem _ _ _ _ _ _ _ _ hm2
  rw [hiv1] at h1
  rw [hiv2] at h2
  injection h1 with h1
  injection h2 with h2
  subst h1
  subst h2
  rw [hp] at hp1 hp2
  injection hp1 with hp1
  injection hp2 with hp2
  subst hp1
  subst hp2
  obtain ⟨a1, b1ra, b1cs, b1ac, b1sf⟩ := buildNormalizeCmd_audio _ _ _ _ _ _ _ _ hb1
  obtain ⟨a2, b2ra, b2cs, b2ac, b2sf⟩ := buildNormalizeCmd_audio _ _ _ _ _ _ _ _ hb2
  refine ⟨a1, a2, a1.trans a2.symm, ?_, ?_, ?_, ?_⟩
  · rw [b1ra, b2ra]
  · rw [b1cs, b2cs]
  · rw [b1ac, b2ac]
  · rw [b1sf, b2sf]

/-- A probe result with no audio stream. -/
def probeSilent : ProbeData :=
  { format := { duration := some 10, size := some 4096 },
    streams :=
      [ { codec_type := "video", codec_name := some "h264", width := some 640,
          height := some 480, r_frame_rate := some "30/1" } ] }

/-- An environment whose probe reports audio for the shared first
input "a.mp4" and no audio for every other path. -/
def envMixedAudio : StitchEnv :=
  { envGood with probe := fun p => if p == "a.mp4" then .ok probeGood else .ok probeSilent }

/-- The command `envMixedAudio` builds for the first input list of the
C8 witness. -/
def cmdMixed1 : NormalizeCmd :=
  { cmdGood with inputPaths := ["a.mp4", "b.mp4"], outputPath := "videos/o1.mp4" }

/-- The command `envMixedAudio` builds for the second input list of
the C8 witness. -/
def cmdMixed2 : NormalizeCmd :=
  { inputPaths := ["a.mp4", "c.mp4", "d.mp4"],
    clipFilters := [⟨640, 480, "1/1", 30⟩, ⟨640, 480, "1/1", 30⟩, ⟨640, 480, "1/1", 30⟩],
    hasAudio := true, audioResampleRate := some 48000, concatAudioStreams := 1,
    vcodec := "libx264", acodec := some "aac", preset := "medium",
    movflags := "faststart", strictFlag := some "experimental",
    outputPath := "videos/o2.mp4" }

/-- Witness for C8: two runs sharing the first input "a.mp4" but with
different (audio-less) later inputs make identical audio decisions. -/
theorem normalization_audio_first_input_witness :
    cmdMixed1.hasAudio = audioDecision probeGood
    ∧ cmdMixed2.hasAudio = audioDecision probeGood
    ∧ cmdMixed1.hasAudio = cmdMixed2.hasAudio
    ∧ cmdMixed1.audioResampleRate = cmdMixed2.audioResampleRate
    ∧ cmdMixed1.concatAudioStreams = cmdMixed2.concatAudioStreams
    ∧ cmdMixed1.acodec = cmdMixed2.acodec
    ∧ cmdMixed1.strictFlag = cmdMixed2.strictFlag :=
  normalization_audio_first_input envMixedAudio ["a.mp4", "b.mp4"]
    ["a.mp4", "c.mp4", "d.mp4"] "a.mp4" probeGood "videos/o1.mp4" "videos/o2.mp4" none
    "libx264" "aac" "medium" cmdMixed1 cmdMixed2 rfl rfl (by decide) (by decide)
    (by decide)

/-- Claim C5, counterexample: the probe value "0/1" — the example the
claim gives of a zero-denominator rational — in fact has denominator 1,
and frame-rate parsing yields an FPS of 0.0 for it, not the null
("unknown") value the claim asserts. -/
theorem parse_fps_zero_over_one_counterexample :
    parseRationalParts "0/1" = some (0, 1) ∧ parse_fps "0/1" = some 0 := by
  exact ⟨by decide, by decide⟩

/-- Claim C5 as amended: for every probed rate string whose rational
actually has a zero denominator (such as "30/0"), frame-rate parsing
yields the null FPS value — the parser is a total function, so no
division error can propagate — and stream processing leaves the fps
field of the dictionary untouched. -/
theorem parse_fps_zero_denominator (s : String) (n : Int)
    (h : parseRationalParts s = some (n, 0)) :
    parse_fps s = none
    ∧ ∀ (m : VmMetadata) (st : StreamInfo), st.r_frame_rate = some s →
        applyFpsField m st = m := by
  have hz : parse_fps s = none := by
    unfold parse_fps
    rw [h]
    dsimp only
    rw [if_neg (by decide)]
  refine ⟨hz, fun m st hst => ?_⟩
  unfold applyFpsField
  rw [hst]
  dsimp only
  rw [hz]

/-- Witness for C5 as amended, at the concrete rate string "30/0". -/
theorem parse_fps_zero_denominator_witness :
    parse_fps "30/0" = none
    ∧ applyFpsField {} { codec_type := "video", r_frame_rate := some "30/0" } = {} :=
  ⟨(parse_fps_zero_denominator "30/0" 30 (by decide)).1,
   (parse_fps_zero_denominator "30/0" 30 (by decide)).2 {}
     { codec_type := "video", r_frame_rate := some "30/0" } rfl⟩

/-- An environment where every file exists with size 2048 bytes but
ffprobe always fails. -/
def envUnprobeable : ProbeEnv :=
  { fsExists := fun _ => true, fileSize := fun _ => 2048,
    ffprobe := fun _ => .error "ffprobe exited with status 1" }

/-- Claim C6, counterexample: for an existing but unprobeable file the
extractor does not fail with NotFound — the `CalledProcessError`
handler catches the probe failure and returns the partial dictionary
(on-disk size, every other field null). -/
theorem extract_metadata_unprobeable_counterexample :
    extract_metadata envUnprobeable "clip.mp4" = .ok { size_bytes := 2048 } := by
  decide

/-- Claim C6 as amended: a missing file fails with
`FileNotFoundError`; an existing but unprobeable file degrades to the
partial dictionary (on-disk size, all other fields null) instead of
failing; and a probeable file returns the processed dictionary, never
an error, whatever shape its format block and streams have. -/
theorem extract_metadata_error_modes (env : ProbeEnv) (p : String) :
    (env.fsExists p = false →
      extract_metadata env p =
        .error (.fileNotFoundError ("Video file not found: " ++ p)))
    ∧ (env.fsExists p = true → ∀ e, env.ffprobe p = .error e →
        extract_metadata env p = .ok { size_bytes := env.fileSize p })
    ∧ (env.fsExists p = true → ∀ pd, env.ffprobe p = .ok pd →
        extract_metadata env p =
          .ok (processStreams (applyFormat { size_bytes := env.fileSize p } pd.format)
            pd.streams)) := by
  refine ⟨fun hm => ?_, fun he e hp => ?_, fun he pd hp => ?_⟩
  · simp [extract_metadata, hm]
  · simp [extract_metadata, he, hp]
  · simp [extract_metadata, he, hp]

/-- An environment in which no file exists. -/
def envNoFile : ProbeEnv :=
  { fsExists := fun _ => false, fileSize := fun _ => 0, ffprobe := fun _ => .error "" }

/-- An environment in which every file exists, has 4096 bytes, and
probes to `probeGood`. -/
def envProbeOk : ProbeEnv :=
  { fsExists := fun _ => true, fileSize := fun _ => 4096,
    ffprobe := fun _ => .ok probeGood }

/-- Witness for C6 as amended, at one concrete input per mode. -/
theorem extract_metadata_error_modes_witness :
    extract_metadata envNoFile "gone.mp4" =
      .error (.fileNotFoundError ("Video file not found: " ++ "gone.mp4"))
    ∧ extract_metadata envUnprobeable "clip2.mp4" = .ok { size_bytes := 2048 }
    ∧ extract_metadata envProbeOk "ok.mp4" =
        .ok (processStreams (applyFormat { size_bytes := 4096 } probeGood.format)
          probeGood.streams) :=
  ⟨(extract_metadata_error_modes envNoFile "gone.mp4").1 rfl,
   (extract_metadata_error_modes envUnprobeable "clip2.mp4").2.1 rfl
     "ffprobe exited with status 1" rfl,
   (extract_metadata_error_modes envProbeOk "ok.mp4").2.2 rfl probeGood rfl⟩

/-- The loop of `_gcd` computes the greatest common divisor. -/
theorem _gcd_eq_gcd (a b : Nat) : _gcd a b = Nat.gcd a b := by
  induction b using Nat.strong_induction_on generalizing a with
  | _ b ih =>
    unfold _gcd
    split
    · rename_i hb
      subst hb
      exact (Nat.gcd_zero_right a).symm
    · rename_i hb
      calc _gcd b (a % b) = Nat.gcd b (a % b) :=
            ih (a % b) (Nat.mod_lt _ (Nat.pos_of_ne_zero hb)) b
        _ = Nat.gcd (a % b) b := Nat.gcd_comm _ _
        _ = Nat.gcd b a := (Nat.gcd_rec b a).symm
        _ = Nat.gcd a b := Nat.gcd_comm _ _

/-- `applyFpsField` touches only the fps field. -/
theorem applyFpsField_aspect (m : VmMetadata) (s : StreamInfo) :
    (applyFpsField m s).aspect_ratio = m.aspect_ratio := by
  unfold applyFpsField
  repeat' split
  all_goals rfl

/-- Claim C9: for a probed video stream with positive width and
height, stream processing succeeds and reports the aspect ratio as
(width over g) : (height over g) with g their greatest common divisor;
the two components are coprime and their ratio equals width : height. -/
theorem aspect_ratio_reduced (m : VmMetadata) (s : StreamInfo) (w hgt : Nat)
    (hv : s.codec_type = "video") (hw : s.width = some w) (hh : s.height = some hgt)
    (hwpos : 0 < w) (hhpos : 0 < hgt) :
    ∃ m1, applyStream m s = .ok m1
      ∧ m1.aspect_ratio =
          some (toString (w / Nat.gcd w hgt) ++ ":" ++ toString (hgt / Nat.gcd w hgt))
      ∧ Nat.Coprime (w / Nat.gcd w hgt) (hgt / Nat.gcd w hgt)
      ∧ (w / Nat.gcd w hgt) * hgt = (hgt / Nat.gcd w hgt) * w := by
  have hg : 0 < Nat.gcd w hgt := Nat.gcd_pos_of_pos_left _ hwpos
  have hgne : ¬ (_gcd w hgt = 0) := by
    rw [_gcd_eq_gcd]
    omega
  have hratio : (w / Nat.gcd w hgt) * hgt = (hgt / Nat.gcd w hgt) * w := by
    set g := Nat.gcd w hgt with hgdef
    obtain ⟨a, ha⟩ := Nat.gcd_dvd_left w hgt
    obtain ⟨b, hb⟩ := Nat.gcd_dvd_right w hgt
    rw [← hgdef] at ha hb
    rw [ha, hb, Nat.mul_div_cancel_left a hg, Nat.mul_div_cancel_left b hg]
    ring
  cases hc : s.codec_name with
  | some c =>
    have happ : applyStream m s = .ok (applyFpsField
        { duration_seconds := m.duration_seconds,
          resolution := some (toString w ++ "x" ++ toString hgt),
          aspect_ratio :=
            some (toString (w / Nat.gcd w hgt) ++ ":" ++ toString (hgt / Nat.gcd w hgt)),
          codec := some c, fps := m.fps, size_bytes := m.size_bytes,
          bitrate := m.bitrate, audio_codec := m.audio_codec } s) := by
      unfold applyStream
      rw [if_pos hv, hc, hw, hh]
      dsimp only
      rw [if_neg hgne]
      simp only [_gcd_eq_gcd]
    exact ⟨_, happ, by rw [applyFpsField_aspect], Nat.coprime_div_gcd_div_gcd hg, hratio⟩
  | none =>
    have happ : applyStream m s = .ok (applyFpsField
        { duration_seconds := m.duration_seconds,
          resolution := some (toString w ++ "x" ++ toString hgt),
          aspect_ratio :=
            some (toString (w / Nat.gcd w hgt) ++ ":" ++ toString (hgt / Nat.gcd w hgt)),
          codec := m.codec, fps := m.fps, size_bytes := m.size_bytes,
          bitrate := m.bitrate, audio_codec := m.audio_codec } s) := by
      unfold applyStream
      rw [if_pos hv, hc, hw, hh]
      dsimp only
      rw [if_neg hgne]
      simp only [_gcd_eq_gcd]
    exact ⟨_, happ, by rw [applyFpsField_aspect], Nat.coprime_div_gcd_div_gcd hg, hratio⟩

/-- A 1920x1080 h264 video stream at 30 fps. -/
def stream1080 : StreamInfo :=
  { codec_type := "video", codec_name := some "h264", width := some 1920,
    height := some 1080, r_frame_rate := some "30/1" }

/-- The dictionary produced for `stream1080` from an empty start. -/
def m1080 : VmMetadata :=
  { resolution := some "1920x1080", aspect_ratio := some "16:9",
    codec := some "h264", fps := some 30 }

/-- Witness for C9 at the concrete 1920x1080 stream: the reported
aspect ratio is "16:9". -/
theorem aspect_ratio_reduced_witness :
    applyStream {} stream1080 = .ok m1080
    ∧ m1080.aspect_ratio =
        some (toString (1920 / Nat.gcd 1920 1080) ++ ":" ++
          toString (1080 / Nat.gcd 1920 1080))
    ∧ Nat.Coprime (1920 / Nat.gcd 1920 1080) (1080 / Nat.gcd 1920 1080)
    ∧ (1920 / Nat.gcd 1920 1080) * 1080 = (1080 / Nat.gcd 1920 1080) * 1920 := by
  obtain ⟨m1, h1, h2, h3, h4⟩ :=
    aspect_ratio_reduced {} stream1080 1920 1080 rfl rfl rfl (by decide) (by decide)
  have hm : m1 = m1080 := by
    have h1e : applyStream {} stream1080 = .ok m1080 := by
      unfold applyStream
      simp only [_gcd_eq_gcd]
      decide
    rw [h1e] at h1
    injection h1 with h1
    exact h1.symm
  subst hm
  exact ⟨h1, h2, h3, h4⟩

/-- The value carried by either side of a stream-processing step. -/
def exOut : Except VmMetadata VmMetadata → VmMetadata
  | .ok m => m
  | .error m => m

/-- `applyFpsField` does not change the recorded file size. -/
theorem applyFpsField_size (m : VmMetadata) (s : StreamInfo) :
    (applyFpsField m s).size_bytes = m.size_bytes := by
  unfold applyFpsField
  repeat' split
  all_goals rfl

/-- One stream-processing step does not change the recorded file
size, whether it completes or raises. -/
theorem applyStream_size (m : VmMetadata) (s : StreamInfo) :
    (exOut (applyStream m s)).size_bytes = m.size_bytes := by
  unfold applyStream
  repeat' split
  all_goals try simp [exOut, applyFpsField_size]
  all_goals
    rename_i w1 h1 he1 he2
    by_cases hz : _gcd w1 h1 = 0 <;> simp [hz, exOut, applyFpsField_size]

/-- The stream loop does not change the recorded file size. -/
theorem processStreams_size (ss : List StreamInfo) (m : VmMetadata) :
    (processStreams m ss).size_bytes = m.size_bytes := by
  induction ss generalizing m with
  | nil => rfl
  | cons s rest ih =>
    unfold processStreams
    cases ha : applyStream m s with
    | ok m1 =>
      dsimp only
      rw [ih m1]
      have hs := applyStream_size m s
      rw [ha] at hs
      exact hs
    | error m1 =>
      dsimp only
      have hs := applyStream_size m s
      rw [ha] at hs
      exact hs

/-- The format block does not change the recorded file size. -/
theorem applyFormat_size (m : VmMetadata) (f : FormatInfo) :
    (applyFormat m f).size_bytes = m.size_bytes := by
  unfold applyFormat
  repeat' split
  all_goals rfl

/-- Claim C10: for every path naming an existing file,
`extract_metadata` returns a dictionary and never propagates an
exception — every probe or parse failure is absorbed internally — and
the returned size_bytes always equals the on-disk size; fields are
only ever filled in from available probe data, so unavailable fields
stay null. -/
theorem extract_metadata_total_on_existing (env : ProbeEnv) (p : String)
    (h : env.fsExists p = true) :
    ∃ m, extract_metadata env p = .ok m ∧ m.size_bytes = env.fileSize p := by
  unfold extract_metadata
  rw [h]
  cases hp : env.ffprobe p with
  | error e => exact ⟨_, rfl, rfl⟩
  | ok pd =>
    refine ⟨_, rfl, ?_⟩
    rw [processStreams_size, applyFormat_size]

/-- Witness for C10 at a concrete existing, probeable file. -/
theorem extract_metadata_total_on_existing_witness :
    ∃ m, extract_metadata envProbeOk "ok2.mp4" = .ok m
      ∧ m.size_bytes = envProbeOk.fileSize "ok2.mp4" :=
  extract_metadata_total_on_existing envProbeOk "ok2.mp4" rfl
